import Mathlib

/-!
Verification of `server.js`, the Express backend of the WebApp repository.

Each route handler of the server is embedded as a pure Lean function from
the request data (body fields as JavaScript values, the uploaded file when
the route takes one) and the outcome of its single database query to a
`HandlerResult`: the HTTP status, the JSON body, and the list of SQL
statements the handler issued (the query string together with the
positional parameters passed to `db.query`).

External effects are parameters: the database outcome is an `Except`
argument (`.error` models a rejected query, caught by the handler's
`catch` block), and the bcrypt primitives `bcrypt.hash` / `bcrypt.compare`
are function arguments, since their code is not part of the repository.
-/

namespace WebApp

/-- A JavaScript runtime value, as far as the handlers inspect one:
request-body fields, SQL parameters and JSON response bodies. -/
inductive JsValue where
  | undefined
  | jsNull
  | bool (b : Bool)
  | num (n : Int)
  | str (s : String)
  | arr (elems : List JsValue)
  | obj (fields : List (String × JsValue))

/-- JavaScript truthiness, as tested by `!x` in the handlers' validation
checks: `undefined`, `null`, `false`, `0` and the empty string are falsy,
everything else (including any array or object) is truthy. -/
def truthy : JsValue → Bool
  | .undefined => false
  | .jsNull => false
  | .bool b => b
  | .num n => n != 0
  | .str s => s != ""
  | .arr _ => true
  | .obj _ => true

/-- JavaScript `a || b`: `a` when `a` is truthy, otherwise `b`. -/
def jsOr (a b : JsValue) : JsValue :=
  if truthy a then a else b

/-- JavaScript property access `v.k` (yields `undefined` on a non-object
or a missing key, as in the handlers' uses). -/
def jsGet (v : JsValue) (k : String) : JsValue :=
  match v with
  | .obj fields => (((fields.find? fun p => p.1 == k).map Prod.snd).getD .undefined)
  | _ => .undefined

/-- JavaScript numeric indexing `v[i]` for the loop over `grades`:
element `i` of an array (or the stringified-key property of an object),
`undefined` otherwise. -/
def jsIndex (v : JsValue) (i : Nat) : JsValue :=
  match v with
  | .arr elems => elems.getD i .undefined
  | .obj fields => (((fields.find? fun p => p.1 == toString i).map Prod.snd).getD .undefined)
  | _ => .undefined

/-- The keys of a JSON object (empty for a non-object). -/
def jsObjKeys : JsValue → List String
  | .obj fields => fields.map Prod.fst
  | _ => []

/-- One call to `db.query`: the SQL text and the positional parameters. -/
structure SqlCall where
  query : String
  params : List JsValue

/-- What a handler produces for one request: HTTP status, JSON body, and
the SQL statements it executed, in order. -/
structure HandlerResult where
  status : Nat
  body : JsValue
  sql : List SqlCall

/-- A `message`-only JSON body. -/
def msgBody (m : String) : JsValue := .obj [("message", .str m)]

/-- An `error`-only JSON body. -/
def errBody (m : String) : JsValue := .obj [("error", .str m)]

/-- The `affectedRows` / `insertId` result object the mysql driver hands
back for an INSERT or DELETE. -/
structure OkPacket where
  affectedRows : Nat
  insertId : Nat

/-- A file stored by multer, as the handlers use it: its `path`. -/
structure UploadedFile where
  path : String

/-! ### multer configuration (source lines 13-32) -/

/-- The `destination` callback of the disk storage: every file goes to
the local `uploads/` directory. -/
def multerDestination : String := "uploads/"

/-- The `filename` callback: the current timestamp, an underscore, then
the file's original name. -/
def multerFilename (now : Nat) (originalname : String) : String :=
  toString now ++ "_" ++ originalname

/-- The path multer records for a stored file (`req.file.path`):
destination directory followed by the generated filename. -/
def multerPath (now : Nat) (originalname : String) : String :=
  multerDestination ++ multerFilename now originalname

/-- `listStartsWith hay needle`: does `needle` occur at the start of
`hay`? (Character-list form of an anchored match.) -/
def listStartsWith : List Char → List Char → Bool
  | _, [] => true
  | [], _ :: _ => false
  | c :: cs, d :: ds => c == d && listStartsWith cs ds

/-- `hasSubstr hay needle`: does `needle` occur contiguously anywhere in
`hay`? This is what `regex.test` computes for an alternation of literal
words: scan every suffix for an anchored match. -/
def hasSubstr : List Char → List Char → Bool
  | hay, needle =>
    listStartsWith hay needle ||
      match hay with
      | [] => false
      | _ :: rest => hasSubstr rest needle

/-- The upload `fileFilter`: `/jpeg|jpg|png|gif/.test(file.mimetype)`,
i.e. accept exactly when the MIME-type string contains one of the four
literals as a substring. -/
def fileFilterAccepts (mimetype : List Char) : Bool :=
  hasSubstr mimetype "jpeg".toList || hasSubstr mimetype "jpg".toList ||
    hasSubstr mimetype "png".toList || hasSubstr mimetype "gif".toList

/-! ### POST /register (source lines 85-102) -/

/-- The fields destructured from the body of POST /register. -/
structure RegisterBody where
  name : JsValue
  email : JsValue
  password : JsValue
  user_type : JsValue

def registerSql : String :=
  "INSERT INTO users (name, email, password, user_type, profile_picture) VALUES (?, ?, ?, ?, ?)"

/-- The POST /register handler. `bcryptHash` stands for `bcrypt.hash`
(called with cost factor 10); `file` is `req.file`; `dbOutcome` is the
result of awaiting the INSERT. -/
def registerHandler (bcryptHash : JsValue → Nat → String) (body : RegisterBody)
    (file : Option UploadedFile) (dbOutcome : Except Unit Unit) : HandlerResult :=
  if !truthy body.name || !truthy body.email || !truthy body.password ||
      !truthy body.user_type || file.isNone then
    { status := 400,
      body := errBody "Please provide name, email, password, user_type, and a profile picture.",
      sql := [] }
  else
    let hashedPassword := bcryptHash body.password 10
    let filePath := (file.map UploadedFile.path).getD ""
    let call : SqlCall :=
      { query := registerSql,
        params := [body.name, body.email, .str hashedPassword, body.user_type, .str filePath] }
    match dbOutcome with
    | .ok _ => { status := 201, body := msgBody "User registered successfully.", sql := [call] }
    | .error _ =>
      { status := 500, body := errBody "Database error during registration.", sql := [call] }

/-! ### POST /login (source lines 105-140) -/

/-- The fields destructured from the body of POST /login. -/
structure LoginBody where
  email : JsValue
  password : JsValue

/-- A row of the `users` table, as `SELECT * FROM users` returns it. -/
structure UserRow where
  id : Nat
  name : String
  email : String
  password : String
  user_type : String
  profile_picture : String

def loginSql : String := "SELECT * FROM users WHERE email = ?"

/-- The `user` object of a successful login response: exactly the five
fields the handler copies out of the row. -/
def loginUserJson (u : UserRow) : JsValue :=
  .obj [("id", .num u.id), ("user_type", .str u.user_type), ("name", .str u.name),
        ("email", .str u.email), ("profile_picture", .str u.profile_picture)]

/-- The POST /login handler. `bcryptCompare` stands for `bcrypt.compare`
applied to the submitted password and the stored hash; `dbOutcome` is the
result of the SELECT. -/
def loginHandler (body : LoginBody) (dbOutcome : Except Unit (List UserRow))
    (bcryptCompare : JsValue → String → Bool) : HandlerResult :=
  if !truthy body.email || !truthy body.password then
    { status := 400, body := errBody "Please provide both email and password.", sql := [] }
  else
    let call : SqlCall := { query := loginSql, params := [body.email] }
    match dbOutcome with
    | .error _ => { status := 500, body := errBody "Database query error.", sql := [call] }
    | .ok data =>
      match data with
      | user :: _ =>
        if bcryptCompare body.password user.password then
          { status := 200,
            body := .obj [("message", .str "Login successful"), ("user", loginUserJson user)],
            sql := [call] }
        else
          { status := 401, body := errBody "Invalid email or password.", sql := [call] }
      | [] => { status := 401, body := errBody "Invalid email or password.", sql := [call] }

/-! ### POST /institutions (source lines 143-175) -/

/-- The fields destructured from the body of POST /institutions. -/
structure InstitutionsBody where
  name : JsValue
  number_of_students : JsValue
  number_of_departments : JsValue
  number_of_courses : JsValue

def institutionsSql : String :=
  "INSERT INTO institutions (name, number_of_students, number_of_departments, number_of_courses, logo) VALUES (?, ?, ?, ?, ?)"

/-- The POST /institutions handler. -/
def institutionsHandler (body : InstitutionsBody) (file : Option UploadedFile)
    (dbOutcome : Except Unit OkPacket) : HandlerResult :=
  if !truthy body.name || !truthy body.number_of_students ||
      !truthy body.number_of_departments || !truthy body.number_of_courses || file.isNone then
    { status := 400, body := errBody "Please provide all required fields and a logo.", sql := [] }
  else
    let filePath := (file.map UploadedFile.path).getD ""
    let call : SqlCall :=
      { query := institutionsSql,
        params := [body.name, body.number_of_students, body.number_of_departments,
                   body.number_of_courses, .str filePath] }
    match dbOutcome with
    | .error _ =>
      { status := 500, body := errBody "Database error during adding institution.", sql := [call] }
    | .ok result =>
      if result.affectedRows > 0 then
        { status := 201,
          body := .obj [("message", .str "Institution added successfully."),
                        ("institution", .obj
                          [("id", .num result.insertId), ("name", body.name),
                           ("number_of_students", body.number_of_students),
                           ("number_of_departments", body.number_of_departments),
                           ("number_of_courses", body.number_of_courses),
                           ("logo", .str filePath)])],
          sql := [call] }
      else
        { status := 500, body := errBody "Failed to add institution.", sql := [call] }

/-! ### POST /faculties (source lines 190-206) -/

/-- The fields destructured from the body of POST /faculties. -/
structure FacultiesBody where
  name : JsValue
  institution_id : JsValue

def facultiesSql : String := "INSERT INTO faculties (name, institution_id) VALUES (?, ?)"

/-- The POST /faculties handler. -/
def facultiesHandler (body : FacultiesBody) (dbOutcome : Except Unit Unit) : HandlerResult :=
  if !truthy body.name || !truthy body.institution_id then
    { status := 400, body := errBody "Please provide both name and institution.", sql := [] }
  else
    let call : SqlCall := { query := facultiesSql, params := [body.name, body.institution_id] }
    match dbOutcome with
    | .ok _ => { status := 201, body := msgBody "Faculty added successfully.", sql := [call] }
    | .error _ =>
      { status := 500, body := errBody "Database error during adding faculty.", sql := [call] }

/-! ### POST /courses (source lines 209-225) -/

/-- The fields destructured from the body of POST /courses. -/
structure CoursesBody where
  name : JsValue
  faculty : JsValue
  institution : JsValue

def coursesInsertSql : String := "INSERT INTO courses (name, faculty_id, institution_id) VALUES (?, ?, ?)"

/-- The POST /courses handler. -/
def coursesPostHandler (body : CoursesBody) (dbOutcome : Except Unit Unit) : HandlerResult :=
  if !truthy body.name || !truthy body.faculty || !truthy body.institution then
    { status := 400, body := errBody "Please provide name, faculty, and institution.", sql := [] }
  else
    let call : SqlCall :=
      { query := coursesInsertSql, params := [body.name, body.faculty, body.institution] }
    match dbOutcome with
    | .ok _ => { status := 201, body := msgBody "Course added successfully.", sql := [call] }
    | .error _ =>
      { status := 500, body := errBody "Database error during adding course.", sql := [call] }

/-! ### GET /courses (source lines 228-245) -/

/-- A row of the `courses` table (columns the query touches). -/
structure CourseRow where
  id : Nat
  name : String
  faculty_id : Nat
  institution_id : Nat

/-- A row of the `institutions` table (columns the query touches). -/
structure InstitutionRow where
  id : Nat
  name : String
  number_of_students : Nat
  number_of_departments : Nat
  number_of_courses : Nat
  logo : String

/-- One row of the GET /courses result set:
`c.id, c.name, i.name AS university, '...' AS requirements`. -/
structure CourseListing where
  id : Nat
  name : String
  university : String
  requirements : String

def getCoursesSql : String :=
  "SELECT c.id, c.name, i.name AS university, 'High School Diploma, Pass in relevant subjects' AS requirements FROM courses c JOIN institutions i ON c.institution_id = i.id;"

/-- Relational semantics of the GET /courses query: the inner join of
`courses` with `institutions` on `c.institution_id = i.id`, each joined
pair projected to the selected columns, with `requirements` the SQL
string literal. -/
def coursesQueryResult (courses : List CourseRow) (institutions : List InstitutionRow) :
    List CourseListing :=
  courses.flatMap fun c =>
    (institutions.filter fun i => i.id == c.institution_id).map fun i =>
      { id := c.id, name := c.name, university := i.name,
        requirements := "High School Diploma, Pass in relevant subjects" }

/-- JSON serialization of one course listing row. -/
def courseListingJson (r : CourseListing) : JsValue :=
  .obj [("id", .num r.id), ("name", .str r.name), ("university", .str r.university),
        ("requirements", .str r.requirements)]

/-- The GET /courses handler: on success it returns the join result as a
JSON array; on a query error, 500. -/
def getCoursesHandler (db : Except Unit (List CourseRow × List InstitutionRow)) :
    HandlerResult :=
  match db with
  | .error _ =>
    { status := 500, body := errBody "Database error while fetching courses.",
      sql := [{ query := getCoursesSql, params := [] }] }
  | .ok (courses, institutions) =>
    { status := 200,
      body := .arr ((coursesQueryResult courses institutions).map courseListingJson),
      sql := [{ query := getCoursesSql, params := [] }] }

/-! ### DELETE /institutions/:id (source lines 260-276) -/

def deleteInstitutionSql : String := "DELETE FROM institutions WHERE id = ?"

/-- The DELETE /institutions/:id handler: 200 when a row was deleted,
404 when no row matched, 500 on a query error. -/
def deleteInstitutionHandler (institutionId : JsValue) (dbOutcome : Except Unit OkPacket) :
    HandlerResult :=
  let call : SqlCall := { query := deleteInstitutionSql, params := [institutionId] }
  match dbOutcome with
  | .error _ =>
    { status := 500, body := errBody "Database error during deleting institution.", sql := [call] }
  | .ok result =>
    if result.affectedRows > 0 then
      { status := 200, body := msgBody "Institution deleted successfully.", sql := [call] }
    else
      { status := 404, body := errBody "Institution not found.", sql := [call] }

/-! ### POST /applications (source lines 279-350) -/

/-- The fields destructured from the body of POST /applications. -/
structure ApplicationsBody where
  studentName : JsValue
  phoneNumber : JsValue
  student_id : JsValue
  university : JsValue
  course_id : JsValue
  faculty : JsValue
  majorSubject : JsValue
  grades : JsValue

/-- The `subjects` array built by the handler's loop: for `i < 8`, if
`grades[i]` is truthy, `grades[i].subject || its empty-string default`,
otherwise the empty string. -/
def appSubjects (grades : JsValue) : List JsValue :=
  (List.range 8).map fun i =>
    if truthy (jsIndex grades i) then jsOr (jsGet (jsIndex grades i) "subject") (.str "")
    else .str ""

/-- The `gradesValues` array built by the same loop, from `grades[i].grade`. -/
def appGradesValues (grades : JsValue) : List JsValue :=
  (List.range 8).map fun i =>
    if truthy (jsIndex grades i) then jsOr (jsGet (jsIndex grades i) "grade") (.str "")
    else .str ""

/-- The INSERT statement of POST /applications, whitespace collapsed:
23 column names but only 20 placeholders in the VALUES clause, exactly
as in the source. -/
def applicationsSql : String :=
  "INSERT INTO applications (student_name, phone_number, student_id, university, course_id, faculty, major_subject, subject1, grade1, subject2, grade2, subject3, grade3, subject4, grade4, subject5, grade5, subject6, grade6, subject7, grade7, subject8, grade8) VALUES (?, ?, ?, ?, ?, ?, ?, ?, ?, ?, ?, ?, ?, ?, ?, ?, ?, ?, ?, ?)"

/-- The column list of that INSERT, in source order. -/
def applicationsColumns : List String :=
  ["student_name", "phone_number", "student_id", "university", "course_id", "faculty",
   "major_subject", "subject1", "grade1", "subject2", "grade2", "subject3", "grade3",
   "subject4", "grade4", "subject5", "grade5", "subject6", "grade6", "subject7", "grade7",
   "subject8", "grade8"]

/-- Number of `?` placeholders in a SQL string. -/
def countPlaceholders (s : String) : Nat :=
  (s.toList.filter fun c => c == '?').length

/-- The parameter array of the INSERT: the seven scalar fields, then all
eight subjects, then all eight grade values (each passed through `|| ''`
once more by the two `map`s). -/
def applicationsParams (body : ApplicationsBody) : List JsValue :=
  [body.studentName, body.phoneNumber, body.student_id, body.university, body.course_id,
   body.faculty, body.majorSubject] ++
    ((appSubjects body.grades).map fun subject => jsOr subject (.str "")) ++
    ((appGradesValues body.grades).map fun grade => jsOr grade (.str ""))

/-- The POST /applications handler. -/
def applicationsHandler (body : ApplicationsBody) (dbOutcome : Except Unit OkPacket) :
    HandlerResult :=
  if !truthy body.studentName || !truthy body.phoneNumber || !truthy body.student_id ||
      !truthy body.university || !truthy body.course_id || !truthy body.faculty ||
      !truthy body.majorSubject || !truthy body.grades then
    { status := 400, body := errBody "All fields are required.", sql := [] }
  else
    let call : SqlCall := { query := applicationsSql, params := applicationsParams body }
    match dbOutcome with
    | .ok result =>
      { status := 201,
        body := .obj [("message", .str "Application submitted successfully"),
                      ("applicationId", .num result.insertId)],
        sql := [call] }
    | .error _ =>
      { status := 500, body := errBody "Database error during application submission.",
        sql := [call] }

/-! ### GET /users (source lines 61-70) -/

/-- JSON serialization of a full `users` row, as `SELECT *` returns it. -/
def userRowJson (u : UserRow) : JsValue :=
  .obj [("id", .num u.id), ("name", .str u.name), ("email", .str u.email),
        ("password", .str u.password), ("user_type", .str u.user_type),
        ("profile_picture", .str u.profile_picture)]

def getUsersSql : String := "SELECT * FROM users"

/-- The GET /users handler: 200 with the rows as JSON, or 500 on a
query error. -/
def getUsersHandler (db : Except Unit (List UserRow)) : HandlerResult :=
  match db with
  | .ok data =>
    { status := 200, body := .arr (data.map userRowJson),
      sql := [{ query := getUsersSql, params := [] }] }
  | .error _ =>
    { status := 500, body := errBody "Database error while fetching users.",
      sql := [{ query := getUsersSql, params := [] }] }

/-! ### GET /institutions (source lines 73-82) -/

/-- JSON serialization of a full `institutions` row. -/
def institutionRowJson (i : InstitutionRow) : JsValue :=
  .obj [("id", .num i.id), ("name", .str i.name),
        ("number_of_students", .num i.number_of_students),
        ("number_of_departments", .num i.number_of_departments),
        ("number_of_courses", .num i.number_of_courses), ("logo", .str i.logo)]

def getInstitutionsSql : String := "SELECT * FROM institutions"

/-- The GET /institutions handler. -/
def getInstitutionsHandler (db : Except Unit (List InstitutionRow)) : HandlerResult :=
  match db with
  | .ok data =>
    { status := 200, body := .arr (data.map institutionRowJson),
      sql := [{ query := getInstitutionsSql, params := [] }] }
  | .error _ =>
    { status := 500, body := errBody "Database error while fetching institutions.",
      sql := [{ query := getInstitutionsSql, params := [] }] }

/-! ### GET /university (source lines 178-187) -/

def getUniversitySql : String :=
  "SELECT id, name, number_of_students, number_of_departments, number_of_courses, logo FROM institutions"

/-- The GET /university handler: the explicitly selected column list is
the whole `institutions` row. -/
def getUniversityHandler (db : Except Unit (List InstitutionRow)) : HandlerResult :=
  match db with
  | .ok results =>
    { status := 200, body := .arr (results.map institutionRowJson),
      sql := [{ query := getUniversitySql, params := [] }] }
  | .error _ =>
    { status := 500, body := errBody "Database error while fetching universities.",
      sql := [{ query := getUniversitySql, params := [] }] }

/-! ### GET /faculties (source lines 248-257) -/

/-- A row of the `faculties` table. -/
structure FacultyRow where
  id : Nat
  name : String
  institution_id : Nat

/-- JSON serialization of a `faculties` row. -/
def facultyRowJson (f : FacultyRow) : JsValue :=
  .obj [("id", .num f.id), ("name", .str f.name), ("institution_id", .num f.institution_id)]

def getFacultiesSql : String := "SELECT id, name, institution_id FROM faculties"

/-- The GET /faculties handler. -/
def getFacultiesHandler (db : Except Unit (List FacultyRow)) : HandlerResult :=
  match db with
  | .ok results =>
    { status := 200, body := .arr (results.map facultyRowJson),
      sql := [{ query := getFacultiesSql, params := [] }] }
  | .error _ =>
    { status := 500, body := errBody "Database error while fetching faculties.",
      sql := [{ query := getFacultiesSql, params := [] }] }

/-! ### GET / (source lines 354-356) -/

/-- The default route: always 200 with the status string, no SQL. -/
def rootHandler : HandlerResult :=
  { status := 200, body := .str "Server is running.", sql := [] }

/-- A POST /applications request with every required field present and a
single grade pair `(Math, A)`, used to analyse the INSERT statement. -/
def c1FailingBody : ApplicationsBody :=
  { studentName := .str "Alice", phoneNumber := .str "0712345678", student_id := .str "S1",
    university := .str "UniA", course_id := .str "7", faculty := .str "Science",
    majorSubject := .str "Math",
    grades := .arr [.obj [("subject", .str "Math"), ("grade", .str "A")]] }

/-! ## Helper lemmas -/

theorem listStartsWith_iff (hay needle : List Char) :
    listStartsWith hay needle = true ↔ needle <+: hay := by
  induction needle generalizing hay with
  | nil => simp [listStartsWith]
  | cons d ds ih =>
    cases hay with
    | nil => simp [listStartsWith]
    | cons c cs =>
      rw [listStartsWith, List.cons_prefix_cons, Bool.and_eq_true, beq_iff_eq, ih]
      exact and_congr_left fun _ => eq_comm

theorem truthy_undefined : truthy .undefined = false := rfl

theorem hasSubstr_iff (hay needle : List Char) :
    hasSubstr hay needle = true ↔ needle <:+: hay := by
  induction hay with
  | nil =>
    rw [hasSubstr]
    simp [listStartsWith_iff]
  | cons c cs ih =>
    rw [hasSubstr]
    simp [listStartsWith_iff, ih, List.infix_cons_iff]

/-! ## Claim theorems -/

/-- C1: the claim says POST /applications records the eight pairs with
`grades[i].subject` in column `subjecti` and `grades[i].grade` in column
`gradei`. The code's INSERT names 23 columns but its VALUES clause has
only 20 placeholders, and the parameter array lists all eight subjects
before all eight grades while the columns interleave subject/grade: at
the position of column `grade1` (index 8) sits the second subject, and
the first grade value sits at the position of column `subject5`
(index 15). The statement is malformed, the database rejects it, and the
handler answers 500. -/
theorem c1_applications_insert_mismatch :
    applicationsColumns.length = 23 ∧
      countPlaceholders applicationsSql = 20 ∧
      applicationsColumns.length ≠ countPlaceholders applicationsSql ∧
      (applicationsParams c1FailingBody).length = 23 ∧
      applicationsColumns[8]? = some "grade1" ∧
      (applicationsParams c1FailingBody)[8]? = some (.str "") ∧
      applicationsColumns[15]? = some "subject5" ∧
      (applicationsParams c1FailingBody)[15]? = some (.str "A") ∧
      (applicationsHandler c1FailingBody (.error ())).status = 500 := by
  refine ⟨rfl, rfl, by decide, rfl, rfl, rfl, rfl, rfl, rfl⟩

/-- C3 (counterexample): the MIME type `application/jpg` is none of
JPEG, PNG or GIF, yet the filter accepts it, because the unanchored
regex `jpeg|jpg|png|gif` matches a substring. -/
theorem c3_substring_counterexample :
    fileFilterAccepts "application/jpg".toList = true ∧
      "application/jpg" ≠ "image/jpeg" ∧ "application/jpg" ≠ "image/png" ∧
      "application/jpg" ≠ "image/gif" := by
  refine ⟨rfl, by decide, by decide, by decide⟩

/-- C3 (amended): an upload is accepted by the filter if and only if its
MIME-type string contains one of `jpeg`, `jpg`, `png`, `gif` as a
contiguous substring; in particular `image/jpeg`, `image/png` and
`image/gif` are accepted, but so is any other MIME type containing one
of those words. -/
theorem c3_fileFilter_accepts_iff_substring (mimetype : List Char) :
    fileFilterAccepts mimetype = true ↔
      ("jpeg".toList <:+: mimetype ∨ "jpg".toList <:+: mimetype ∨
        "png".toList <:+: mimetype ∨ "gif".toList <:+: mimetype) := by
  simp [fileFilterAccepts, hasSubstr_iff, or_assoc]

/-- C4: with both credentials supplied, a login whose email matches no
stored user and a login whose email matches a user but whose password
fails the bcrypt comparison produce identical responses: the same 401
status with the same `Invalid email or password.` body. -/
theorem c4_login_no_account_enumeration
    (body : LoginBody) (cmp : JsValue → String → Bool) (u : UserRow) (rest : List UserRow)
    (he : truthy body.email = true) (hp : truthy body.password = true)
    (hc : cmp body.password u.password = false) :
    loginHandler body (.ok []) cmp = loginHandler body (.ok (u :: rest)) cmp ∧
      (loginHandler body (.ok []) cmp).status = 401 ∧
      (loginHandler body (.ok []) cmp).body = errBody "Invalid email or password." := by
  refine ⟨?_, ?_, ?_⟩ <;> simp [loginHandler, he, hp, hc]

/-- Witness for C4 at a concrete request, user row and comparator. -/
theorem c4_login_no_account_enumeration_witness :
    loginHandler ⟨.str "a@b.c", .str "pw"⟩ (.ok []) (fun _ _ => false) =
        loginHandler ⟨.str "a@b.c", .str "pw"⟩
          (.ok [⟨1, "Ann", "a@b.c", "stored-hash", "student", "uploads/1_p.png"⟩])
          (fun _ _ => false) ∧
      (loginHandler ⟨.str "a@b.c", .str "pw"⟩ (.ok []) (fun _ _ => false)).status = 401 ∧
      (loginHandler ⟨.str "a@b.c", .str "pw"⟩ (.ok []) (fun _ _ => false)).body =
        errBody "Invalid email or password." :=
  c4_login_no_account_enumeration ⟨.str "a@b.c", .str "pw"⟩ (fun _ _ => false)
    ⟨1, "Ann", "a@b.c", "stored-hash", "student", "uploads/1_p.png"⟩ [] rfl rfl rfl

/-- C9: the user object of a successful login response has exactly the
keys `id`, `user_type`, `name`, `email`, `profile_picture` (no stored
password hash), and two users that agree on those five columns but
differ in their stored password hash yield identical success
responses. -/
theorem c9_login_success_no_hash_leak
    (body : LoginBody) (cmp : JsValue → String → Bool) (u1 u2 : UserRow)
    (hid : u1.id = u2.id) (hn : u1.name = u2.name) (hem : u1.email = u2.email)
    (ht : u1.user_type = u2.user_type) (hpp : u1.profile_picture = u2.profile_picture)
    (he : truthy body.email = true) (hp : truthy body.password = true)
    (h1 : cmp body.password u1.password = true) (h2 : cmp body.password u2.password = true) :
    jsObjKeys (loginUserJson u1) = ["id", "user_type", "name", "email", "profile_picture"] ∧
      (loginHandler body (.ok [u1]) cmp).body =
        .obj [("message", .str "Login successful"), ("user", loginUserJson u1)] ∧
      loginHandler body (.ok [u1]) cmp = loginHandler body (.ok [u2]) cmp := by
  refine ⟨rfl, ?_, ?_⟩ <;>
    simp [loginHandler, loginUserJson, he, hp, h1, h2, hid, hn, hem, ht, hpp]

/-- Witness for C9: two concrete users differing only in the stored
hash, a comparator accepting both. -/
theorem c9_login_success_no_hash_leak_witness :
    jsObjKeys (loginUserJson ⟨1, "Ann", "a@b.c", "hashA", "student", "uploads/1_p.png"⟩) =
        ["id", "user_type", "name", "email", "profile_picture"] ∧
      (loginHandler ⟨.str "a@b.c", .str "pw"⟩
          (.ok [⟨1, "Ann", "a@b.c", "hashA", "student", "uploads/1_p.png"⟩])
          (fun _ _ => true)).body =
        .obj [("message", .str "Login successful"),
              ("user", loginUserJson ⟨1, "Ann", "a@b.c", "hashA", "student", "uploads/1_p.png"⟩)] ∧
      loginHandler ⟨.str "a@b.c", .str "pw"⟩
          (.ok [⟨1, "Ann", "a@b.c", "hashA", "student", "uploads/1_p.png"⟩]) (fun _ _ => true) =
        loginHandler ⟨.str "a@b.c", .str "pw"⟩
          (.ok [⟨1, "Ann", "a@b.c", "hashB", "student", "uploads/1_p.png"⟩]) (fun _ _ => true) :=
  c9_login_success_no_hash_leak ⟨.str "a@b.c", .str "pw"⟩ (fun _ _ => true)
    ⟨1, "Ann", "a@b.c", "hashA", "student", "uploads/1_p.png"⟩
    ⟨1, "Ann", "a@b.c", "hashB", "student", "uploads/1_p.png"⟩
    rfl rfl rfl rfl rfl rfl rfl rfl rfl

/-- C5: a successful registration issues exactly one INSERT whose
password parameter (third position, the `password` column) is the bcrypt
hash of the submitted password computed with cost factor 10; whenever
that hash differs from the plaintext, the stored value is not the
plaintext password. -/
theorem c5_register_stores_bcrypt_hash
    (bcryptHash : JsValue → Nat → String) (body : RegisterBody) (file : UploadedFile)
    (hn : truthy body.name = true) (he : truthy body.email = true)
    (hp : truthy body.password = true) (hu : truthy body.user_type = true) :
    (registerHandler bcryptHash body (some file) (.ok ())).status = 201 ∧
      (registerHandler bcryptHash body (some file) (.ok ())).sql =
        [{ query := registerSql,
           params := [body.name, body.email, .str (bcryptHash body.password 10),
                      body.user_type, .str file.path] }] ∧
      (∀ s : String, body.password = .str s → bcryptHash body.password 10 ≠ s →
        JsValue.str (bcryptHash body.password 10) ≠ body.password) := by
  refine ⟨?_, ?_, ?_⟩
  · simp [registerHandler, hn, he, hp, hu]
  · simp [registerHandler, hn, he, hp, hu]
  · intro s hs hne hcontra
    rw [hs] at hne hcontra
    injection hcontra with h
    exact hne h

/-- Witness for C5 at a concrete request and hash function. -/
theorem c5_register_stores_bcrypt_hash_witness :
    (registerHandler (fun _ c => "bcrypt-digest-" ++ toString c)
        ⟨.str "Bob", .str "b@c.d", .str "secret", .str "student"⟩
        (some ⟨"uploads/7_p.png"⟩) (.ok ())).status = 201 ∧
      (registerHandler (fun _ c => "bcrypt-digest-" ++ toString c)
          ⟨.str "Bob", .str "b@c.d", .str "secret", .str "student"⟩
          (some ⟨"uploads/7_p.png"⟩) (.ok ())).sql =
        [{ query := registerSql,
           params := [.str "Bob", .str "b@c.d", .str "bcrypt-digest-10",
                      .str "student", .str "uploads/7_p.png"] }] ∧
      (∀ s : String, (JsValue.str "secret") = .str s → "bcrypt-digest-10" ≠ s →
        JsValue.str "bcrypt-digest-10" ≠ .str "secret") :=
  c5_register_stores_bcrypt_hash (fun _ c => "bcrypt-digest-" ++ toString c)
    ⟨.str "Bob", .str "b@c.d", .str "secret", .str "student"⟩ ⟨"uploads/7_p.png"⟩
    rfl rfl rfl rfl

/-- C7: the path multer stores an accepted file under is the `uploads/`
directory plus the current timestamp, an underscore and the original
filename, and exactly that path is the value the POST /register and
POST /institutions handlers pass for the `profile_picture` / `logo`
column of their INSERT. -/
theorem c7_upload_path_persisted
    (now : Nat) (originalname : String)
    (bcryptHash : JsValue → Nat → String) (rb : RegisterBody) (rd : Except Unit Unit)
    (ib : InstitutionsBody) (idb : Except Unit OkPacket)
    (hn : truthy rb.name = true) (he : truthy rb.email = true)
    (hp : truthy rb.password = true) (hu : truthy rb.user_type = true)
    (hin : truthy ib.name = true) (his : truthy ib.number_of_students = true)
    (hdp : truthy ib.number_of_departments = true)
    (hic : truthy ib.number_of_courses = true) :
    multerPath now originalname = "uploads/" ++ (toString now ++ "_" ++ originalname) ∧
      (registerHandler bcryptHash rb (some ⟨multerPath now originalname⟩) rd).sql =
        [{ query := registerSql,
           params := [rb.name, rb.email, .str (bcryptHash rb.password 10),
                      rb.user_type, .str (multerPath now originalname)] }] ∧
      (institutionsHandler ib (some ⟨multerPath now originalname⟩) idb).sql =
        [{ query := institutionsSql,
           params := [ib.name, ib.number_of_students, ib.number_of_departments,
                      ib.number_of_courses, .str (multerPath now originalname)] }] := by
  refine ⟨rfl, ?_, ?_⟩
  · cases rd <;> simp [registerHandler, hn, he, hp, hu]
  · cases idb with
    | error e => simp [institutionsHandler, hin, his, hdp, hic]
    | ok r => cases Nat.eq_zero_or_pos r.affectedRows <;>
        simp_all [institutionsHandler, hin, his, hdp, hic]

/-- Witness for C7 at a concrete timestamp, filename and request. -/
theorem c7_upload_path_persisted_witness :
    multerPath 1700000000000 "logo.png" =
        "uploads/" ++ (toString 1700000000000 ++ "_" ++ "logo.png") ∧
      (registerHandler (fun _ _ => "digest")
          ⟨.str "Bob", .str "b@c.d", .str "secret", .str "student"⟩
          (some ⟨multerPath 1700000000000 "logo.png"⟩) (.ok ())).sql =
        [{ query := registerSql,
           params := [.str "Bob", .str "b@c.d", .str "digest", .str "student",
                      .str (multerPath 1700000000000 "logo.png")] }] ∧
      (institutionsHandler ⟨.str "Uni", .num 1000, .num 5, .num 40⟩
          (some ⟨multerPath 1700000000000 "logo.png"⟩) (.ok ⟨1, 3⟩)).sql =
        [{ query := institutionsSql,
           params := [.str "Uni", .num 1000, .num 5, .num 40,
                      .str (multerPath 1700000000000 "logo.png")] }] :=
  c7_upload_path_persisted 1700000000000 "logo.png" (fun _ _ => "digest")
    ⟨.str "Bob", .str "b@c.d", .str "secret", .str "student"⟩ (.ok ())
    ⟨.str "Uni", .num 1000, .num 5, .num 40⟩ (.ok ⟨1, 3⟩)
    rfl rfl rfl rfl rfl (by decide) (by decide) (by decide)

/-- C6: for each of the six POST routes, if any required body field is
absent (destructuring yields `undefined`) or a required file is missing,
the handler answers 400 and issues no SQL statement. -/
theorem c6_missing_field_400_no_sql
    (bcryptHash : JsValue → Nat → String)
    (rb : RegisterBody) (rf : Option UploadedFile) (rd : Except Unit Unit)
    (lb : LoginBody) (ld : Except Unit (List UserRow)) (cmp : JsValue → String → Bool)
    (ib : InstitutionsBody) (ifl : Option UploadedFile) (idb : Except Unit OkPacket)
    (fb : FacultiesBody) (fd : Except Unit Unit)
    (cb : CoursesBody) (cd : Except Unit Unit)
    (ab : ApplicationsBody) (ad : Except Unit OkPacket) :
    ((rb.name = .undefined ∨ rb.email = .undefined ∨ rb.password = .undefined ∨
        rb.user_type = .undefined ∨ rf = none) →
      (registerHandler bcryptHash rb rf rd).status = 400 ∧
        (registerHandler bcryptHash rb rf rd).sql = []) ∧
    ((lb.email = .undefined ∨ lb.password = .undefined) →
      (loginHandler lb ld cmp).status = 400 ∧ (loginHandler lb ld cmp).sql = []) ∧
    ((ib.name = .undefined ∨ ib.number_of_students = .undefined ∨
        ib.number_of_departments = .undefined ∨ ib.number_of_courses = .undefined ∨
        ifl = none) →
      (institutionsHandler ib ifl idb).status = 400 ∧
        (institutionsHandler ib ifl idb).sql = []) ∧
    ((fb.name = .undefined ∨ fb.institution_id = .undefined) →
      (facultiesHandler fb fd).status = 400 ∧ (facultiesHandler fb fd).sql = []) ∧
    ((cb.name = .undefined ∨ cb.faculty = .undefined ∨ cb.institution = .undefined) →
      (coursesPostHandler cb cd).status = 400 ∧ (coursesPostHandler cb cd).sql = []) ∧
    ((ab.studentName = .undefined ∨ ab.phoneNumber = .undefined ∨
        ab.student_id = .undefined ∨ ab.university = .undefined ∨
        ab.course_id = .undefined ∨ ab.faculty = .undefined ∨
        ab.majorSubject = .undefined ∨ ab.grades = .undefined) →
      (applicationsHandler ab ad).status = 400 ∧ (applicationsHandler ab ad).sql = []) := by
  refine ⟨?_, ?_, ?_, ?_, ?_, ?_⟩ <;> intro h
  · rcases h with h | h | h | h | h <;> simp [registerHandler, h, truthy]
  · rcases h with h | h <;> simp [loginHandler, h, truthy]
  · rcases h with h | h | h | h | h <;> simp [institutionsHandler, h, truthy]
  · rcases h with h | h <;> simp [facultiesHandler, h, truthy]
  · rcases h with h | h | h <;> simp [coursesPostHandler, h, truthy]
  · rcases h with h | h | h | h | h | h | h | h <;> simp [applicationsHandler, h, truthy]

/-- Witness for C6: one concrete incomplete request per POST route, each
rejected with 400 and an empty SQL trace. -/
theorem c6_missing_field_400_no_sql_witness :
    ((registerHandler (fun _ _ => "digest")
          ⟨.undefined, .str "b@c.d", .str "pw", .str "student"⟩
          (some ⟨"uploads/1_p.png"⟩) (.ok ())).status = 400 ∧
        (registerHandler (fun _ _ => "digest")
          ⟨.undefined, .str "b@c.d", .str "pw", .str "student"⟩
          (some ⟨"uploads/1_p.png"⟩) (.ok ())).sql = []) ∧
      ((loginHandler ⟨.undefined, .str "pw"⟩ (.ok []) (fun _ _ => true)).status = 400 ∧
        (loginHandler ⟨.undefined, .str "pw"⟩ (.ok []) (fun _ _ => true)).sql = []) ∧
      ((institutionsHandler ⟨.undefined, .num 10, .num 2, .num 3⟩
          (some ⟨"uploads/2_l.png"⟩) (.ok ⟨1, 1⟩)).status = 400 ∧
        (institutionsHandler ⟨.undefined, .num 10, .num 2, .num 3⟩
          (some ⟨"uploads/2_l.png"⟩) (.ok ⟨1, 1⟩)).sql = []) ∧
      ((facultiesHandler ⟨.undefined, .num 1⟩ (.ok ())).status = 400 ∧
        (facultiesHandler ⟨.undefined, .num 1⟩ (.ok ())).sql = []) ∧
      ((coursesPostHandler ⟨.undefined, .num 1, .num 2⟩ (.ok ())).status = 400 ∧
        (coursesPostHandler ⟨.undefined, .num 1, .num 2⟩ (.ok ())).sql = []) ∧
      ((applicationsHandler
          ⟨.undefined, .str "07", .str "S1", .str "U", .str "C", .str "F", .str "M",
            .arr []⟩ (.ok ⟨1, 1⟩)).status = 400 ∧
        (applicationsHandler
          ⟨.undefined, .str "07", .str "S1", .str "U", .str "C", .str "F", .str "M",
            .arr []⟩ (.ok ⟨1, 1⟩)).sql = []) := by
  have h := c6_missing_field_400_no_sql (fun _ _ => "digest")
    ⟨.undefined, .str "b@c.d", .str "pw", .str "student"⟩ (some ⟨"uploads/1_p.png"⟩) (.ok ())
    ⟨.undefined, .str "pw"⟩ (.ok []) (fun _ _ => true)
    ⟨.undefined, .num 10, .num 2, .num 3⟩ (some ⟨"uploads/2_l.png"⟩) (.ok ⟨1, 1⟩)
    ⟨.undefined, .num 1⟩ (.ok ())
    ⟨.undefined, .num 1, .num 2⟩ (.ok ())
    ⟨.undefined, .str "07", .str "S1", .str "U", .str "C", .str "F", .str "M", .arr []⟩
    (.ok ⟨1, 1⟩)
  exact ⟨h.1 (Or.inl rfl), h.2.1 (Or.inl rfl), h.2.2.1 (Or.inl rfl),
    h.2.2.2.1 (Or.inl rfl), h.2.2.2.2.1 (Or.inl rfl), h.2.2.2.2.2 (Or.inl rfl)⟩

/-- C10: the validation tests JavaScript truthiness, so in every POST
route, every required body field that is present but falsy (`0`, the
empty string, `false`) is rejected with 400 exactly as if it were
missing: for each of the 23 required fields of the six POST routes,
setting that field to any falsy value yields a response identical to
the one for the field set to `undefined`, with status 400. -/
theorem c10_falsy_field_rejected_like_missing
    (v : JsValue) (hv : truthy v = false)
    (bcryptHash : JsValue → Nat → String) (rb : RegisterBody) (rf : Option UploadedFile)
    (rd : Except Unit Unit)
    (lb : LoginBody) (ld : Except Unit (List UserRow)) (cmp : JsValue → String → Bool)
    (ib : InstitutionsBody) (ifl : Option UploadedFile) (idb : Except Unit OkPacket)
    (fb : FacultiesBody) (fd : Except Unit Unit)
    (cb : CoursesBody) (cd : Except Unit Unit)
    (ab : ApplicationsBody) (ad : Except Unit OkPacket) :
    ((registerHandler bcryptHash { rb with name := v } rf rd).status = 400 ∧
      registerHandler bcryptHash { rb with name := v } rf rd =
        registerHandler bcryptHash { rb with name := .undefined } rf rd) ∧
    ((registerHandler bcryptHash { rb with email := v } rf rd).status = 400 ∧
      registerHandler bcryptHash { rb with email := v } rf rd =
        registerHandler bcryptHash { rb with email := .undefined } rf rd) ∧
    ((registerHandler bcryptHash { rb with password := v } rf rd).status = 400 ∧
      registerHandler bcryptHash { rb with password := v } rf rd =
        registerHandler bcryptHash { rb with password := .undefined } rf rd) ∧
    ((registerHandler bcryptHash { rb with user_type := v } rf rd).status = 400 ∧
      registerHandler bcryptHash { rb with user_type := v } rf rd =
        registerHandler bcryptHash { rb with user_type := .undefined } rf rd) ∧
    ((loginHandler { lb with email := v } ld cmp).status = 400 ∧
      loginHandler { lb with email := v } ld cmp =
        loginHandler { lb with email := .undefined } ld cmp) ∧
    ((loginHandler { lb with password := v } ld cmp).status = 400 ∧
      loginHandler { lb with password := v } ld cmp =
        loginHandler { lb with password := .undefined } ld cmp) ∧
    ((institutionsHandler { ib with name := v } ifl idb).status = 400 ∧
      institutionsHandler { ib with name := v } ifl idb =
        institutionsHandler { ib with name := .undefined } ifl idb) ∧
    ((institutionsHandler { ib with number_of_students := v } ifl idb).status = 400 ∧
      institutionsHandler { ib with number_of_students := v } ifl idb =
        institutionsHandler { ib with number_of_students := .undefined } ifl idb) ∧
    ((institutionsHandler { ib with number_of_departments := v } ifl idb).status = 400 ∧
      institutionsHandler { ib with number_of_departments := v } ifl idb =
        institutionsHandler { ib with number_of_departments := .undefined } ifl idb) ∧
    ((institutionsHandler { ib with number_of_courses := v } ifl idb).status = 400 ∧
      institutionsHandler { ib with number_of_courses := v } ifl idb =
        institutionsHandler { ib with number_of_courses := .undefined } ifl idb) ∧
    ((facultiesHandler { fb with name := v } fd).status = 400 ∧
      facultiesHandler { fb with name := v } fd =
        facultiesHandler { fb with name := .undefined } fd) ∧
    ((facultiesHandler { fb with institution_id := v } fd).status = 400 ∧
      facultiesHandler { fb with institution_id := v } fd =
        facultiesHandler { fb with institution_id := .undefined } fd) ∧
    ((coursesPostHandler { cb with name := v } cd).status = 400 ∧
      coursesPostHandler { cb with name := v } cd =
        coursesPostHandler { cb with name := .undefined } cd) ∧
    ((coursesPostHandler { cb with faculty := v } cd).status = 400 ∧
      coursesPostHandler { cb with faculty := v } cd =
        coursesPostHandler { cb with faculty := .undefined } cd) ∧
    ((coursesPostHandler { cb with institution := v } cd).status = 400 ∧
      coursesPostHandler { cb with institution := v } cd =
        coursesPostHandler { cb with institution := .undefined } cd) ∧
    ((applicationsHandler { ab with studentName := v } ad).status = 400 ∧
      applicationsHandler { ab with studentName := v } ad =
        applicationsHandler { ab with studentName := .undefined } ad) ∧
    ((applicationsHandler { ab with phoneNumber := v } ad).status = 400 ∧
      applicationsHandler { ab with phoneNumber := v } ad =
        applicationsHandler { ab with phoneNumber := .undefined } ad) ∧
    ((applicationsHandler { ab with student_id := v } ad).status = 400 ∧
      applicationsHandler { ab with student_id := v } ad =
        applicationsHandler { ab with student_id := .undefined } ad) ∧
    ((applicationsHandler { ab with university := v } ad).status = 400 ∧
      applicationsHandler { ab with university := v } ad =
        applicationsHandler { ab with university := .undefined } ad) ∧
    ((applicationsHandler { ab with course_id := v } ad).status = 400 ∧
      applicationsHandler { ab with course_id := v } ad =
        applicationsHandler { ab with course_id := .undefined } ad) ∧
    ((applicationsHandler { ab with faculty := v } ad).status = 400 ∧
      applicationsHandler { ab with faculty := v } ad =
        applicationsHandler { ab with faculty := .undefined } ad) ∧
    ((applicationsHandler { ab with majorSubject := v } ad).status = 400 ∧
      applicationsHandler { ab with majorSubject := v } ad =
        applicationsHandler { ab with majorSubject := .undefined } ad) ∧
    ((applicationsHandler { ab with grades := v } ad).status = 400 ∧
      applicationsHandler { ab with grades := v } ad =
        applicationsHandler { ab with grades := .undefined } ad) := by
  refine ⟨?_, ?_, ?_, ?_, ?_, ?_, ?_, ?_, ?_, ?_, ?_, ?_, ?_, ?_, ?_, ?_, ?_, ?_, ?_, ?_,
    ?_, ?_, ?_⟩ <;>
    refine ⟨?_, ?_⟩ <;>
    simp [registerHandler, loginHandler, institutionsHandler, facultiesHandler,
      coursesPostHandler, applicationsHandler, hv, truthy_undefined]

/-- Witness for C10 with falsy value `0`: one field per POST route
(plus the claim's `number_of_students` example and its
undefined-equality), each rejected with 400. -/
theorem c10_falsy_field_rejected_like_missing_witness :
    (registerHandler (fun _ _ => "digest") ⟨.num 0, .str "b@c.d", .str "pw", .str "s"⟩
        (some ⟨"uploads/4_p.png"⟩) (.ok ())).status = 400 ∧
      registerHandler (fun _ _ => "digest") ⟨.num 0, .str "b@c.d", .str "pw", .str "s"⟩
          (some ⟨"uploads/4_p.png"⟩) (.ok ()) =
        registerHandler (fun _ _ => "digest") ⟨.undefined, .str "b@c.d", .str "pw", .str "s"⟩
          (some ⟨"uploads/4_p.png"⟩) (.ok ()) ∧
      (loginHandler ⟨.str "a@b.c", .num 0⟩ (.ok []) (fun _ _ => true)).status = 400 ∧
      (institutionsHandler ⟨.str "Uni", .num 0, .num 2, .num 3⟩
        (some ⟨"uploads/3_l.png"⟩) (.ok ⟨1, 1⟩)).status = 400 ∧
      institutionsHandler ⟨.str "Uni", .num 0, .num 2, .num 3⟩
          (some ⟨"uploads/3_l.png"⟩) (.ok ⟨1, 1⟩) =
        institutionsHandler ⟨.str "Uni", .undefined, .num 2, .num 3⟩
          (some ⟨"uploads/3_l.png"⟩) (.ok ⟨1, 1⟩) ∧
      (facultiesHandler ⟨.num 0, .num 1⟩ (.ok ())).status = 400 ∧
      (coursesPostHandler ⟨.str "C", .num 0, .num 2⟩ (.ok ())).status = 400 ∧
      (applicationsHandler ⟨.str "A", .str "07", .str "S1", .str "U", .str "C", .str "F",
        .str "M", .num 0⟩ (.ok ⟨1, 1⟩)).status = 400 := by
  have h := c10_falsy_field_rejected_like_missing (.num 0) (by decide)
    (fun _ _ => "digest") ⟨.str "ignored", .str "b@c.d", .str "pw", .str "s"⟩
    (some ⟨"uploads/4_p.png"⟩) (.ok ())
    ⟨.str "a@b.c", .str "ignored"⟩ (.ok []) (fun _ _ => true)
    ⟨.str "Uni", .num 999, .num 2, .num 3⟩ (some ⟨"uploads/3_l.png"⟩) (.ok ⟨1, 1⟩)
    ⟨.str "ignored", .num 1⟩ (.ok ())
    ⟨.str "C", .str "ignored", .num 2⟩ (.ok ())
    ⟨.str "A", .str "07", .str "S1", .str "U", .str "C", .str "F", .str "M", .arr []⟩
    (.ok ⟨1, 1⟩)
  obtain ⟨h1, _, _, _, _, h6, _, h8, _, _, h11, _, _, h14, _, _, _, _, _, _, _, _, h23⟩ := h
  exact ⟨h1.1, h1.2, h6.1, h8.1, h8.2, h11.1, h14.1, h23.1⟩

/-- C8: the GET /courses response is the JSON array of the join result,
and every element of that array has a `requirements` field equal to the
constant SQL string literal, whatever the `courses` and `institutions`
tables contain. -/
theorem c8_requirements_constant
    (courses : List CourseRow) (institutions : List InstitutionRow) (v : JsValue)
    (hv : v ∈ (coursesQueryResult courses institutions).map courseListingJson) :
    jsGet v "requirements" = .str "High School Diploma, Pass in relevant subjects" ∧
      (getCoursesHandler (.ok (courses, institutions))).body =
        .arr ((coursesQueryResult courses institutions).map courseListingJson) := by
  refine ⟨?_, rfl⟩
  obtain ⟨r, hr, rfl⟩ := List.mem_map.mp hv
  simp only [coursesQueryResult, List.mem_flatMap, List.mem_map, List.mem_filter] at hr
  obtain ⟨c, _, i, _, rfl⟩ := hr
  rfl

/-- Witness for C8 on a one-course, one-institution database. -/
theorem c8_requirements_constant_witness :
    jsGet (courseListingJson
        ⟨1, "CS", "Uni", "High School Diploma, Pass in relevant subjects"⟩) "requirements" =
        .str "High School Diploma, Pass in relevant subjects" ∧
      (getCoursesHandler (.ok ([⟨1, "CS", 2, 3⟩], [⟨3, "Uni", 10, 4, 5, "uploads/9_l.png"⟩]))).body =
        .arr ((coursesQueryResult [⟨1, "CS", 2, 3⟩]
          [⟨3, "Uni", 10, 4, 5, "uploads/9_l.png"⟩]).map courseListingJson) :=
  c8_requirements_constant [⟨1, "CS", 2, 3⟩] [⟨3, "Uni", 10, 4, 5, "uploads/9_l.png"⟩]
    (courseListingJson ⟨1, "CS", "Uni", "High School Diploma, Pass in relevant subjects"⟩)
    (by simp [coursesQueryResult])

/-- C2 (counterexample): deleting an institution whose id matches no row
yields an error response with status 404, which is neither of the two
statuses the claim allows. -/
theorem c2_only_400_500_counterexample :
    (deleteInstitutionHandler (.str "999") (.ok ⟨0, 0⟩)).status = 404 ∧
      (deleteInstitutionHandler (.str "999") (.ok ⟨0, 0⟩)).body =
        errBody "Institution not found." ∧
      (404 : Nat) ≠ 400 ∧ (404 : Nat) ≠ 500 := by
  refine ⟨rfl, rfl, by decide, by decide⟩

/-- C2 (amended): error responses come in four forms, not two: 400 with
a message for a missing required field, 401 for invalid login
credentials, 404 for deleting a nonexistent institution, and 500 with a
generic message for database/server failures. Each of the thirteen
routes' statuses lies in its listed set, so no status outside
200/201/400/401/404/500 ever occurs. -/
theorem c2_error_status_catalogue :
    (∀ b d cmp, (loginHandler b d cmp).status ∈ ([200, 400, 401, 500] : List Nat)) ∧
      (∀ i d, (deleteInstitutionHandler i d).status ∈ ([200, 404, 500] : List Nat)) ∧
      (∀ h b f d, (registerHandler h b f d).status ∈ ([201, 400, 500] : List Nat)) ∧
      (∀ b f d, (institutionsHandler b f d).status ∈ ([201, 400, 500] : List Nat)) ∧
      (∀ b d, (facultiesHandler b d).status ∈ ([201, 400, 500] : List Nat)) ∧
      (∀ b d, (coursesPostHandler b d).status ∈ ([201, 400, 500] : List Nat)) ∧
      (∀ b d, (applicationsHandler b d).status ∈ ([201, 400, 500] : List Nat)) ∧
      (∀ d, (getCoursesHandler d).status ∈ ([200, 500] : List Nat)) ∧
      (∀ d, (getUsersHandler d).status ∈ ([200, 500] : List Nat)) ∧
      (∀ d, (getInstitutionsHandler d).status ∈ ([200, 500] : List Nat)) ∧
      (∀ d, (getUniversityHandler d).status ∈ ([200, 500] : List Nat)) ∧
      (∀ d, (getFacultiesHandler d).status ∈ ([200, 500] : List Nat)) ∧
      rootHandler.status ∈ ([200] : List Nat) := by
  refine ⟨?_, ?_, ?_, ?_, ?_, ?_, ?_, ?_, ?_, ?_, ?_, ?_, ?_⟩
  · intro b d cmp
    unfold loginHandler
    repeat' split
    all_goals simp
  · intro i d
    unfold deleteInstitutionHandler
    repeat' split
    all_goals simp
  · intro h b f d
    unfold registerHandler
    repeat' split
    all_goals simp
  · intro b f d
    unfold institutionsHandler
    repeat' split
    all_goals simp
  · intro b d
    unfold facultiesHandler
    repeat' split
    all_goals simp
  · intro b d
    unfold coursesPostHandler
    repeat' split
    all_goals simp
  · intro b d
    unfold applicationsHandler
    repeat' split
    all_goals simp
  · intro d
    unfold getCoursesHandler
    repeat' split
    all_goals simp
  · intro d
    unfold getUsersHandler
    repeat' split
    all_goals simp
  · intro d
    unfold getInstitutionsHandler
    repeat' split
    all_goals simp
  · intro d
    unfold getUniversityHandler
    repeat' split
    all_goals simp
  · intro d
    unfold getFacultiesHandler
    repeat' split
    all_goals simp
  · simp [rootHandler]

/-- Witness for the C2 catalogue at concrete requests: a valid login
against an empty user table hits 401, and both example statuses are in
the allowed sets. -/
theorem c2_error_status_catalogue_witness :
    (loginHandler ⟨.str "a@b.c", .str "pw"⟩ (.ok []) (fun _ _ => true)).status ∈
        ([200, 400, 401, 500] : List Nat) ∧
      (deleteInstitutionHandler (.str "999") (.ok ⟨0, 0⟩)).status ∈
        ([200, 404, 500] : List Nat) :=
  ⟨c2_error_status_catalogue.1 ⟨.str "a@b.c", .str "pw"⟩ (.ok []) (fun _ _ => true),
    c2_error_status_catalogue.2.1 (.str "999") (.ok ⟨0, 0⟩)⟩

/-- Witness for the amended C3 at a concrete MIME type: `image/png`
contains `png`, so the filter accepts it. -/
theorem c3_fileFilter_accepts_iff_substring_witness :
    fileFilterAccepts "image/png".toList = true :=
  (c3_fileFilter_accepts_iff_substring "image/png".toList).mpr
    (Or.inr (Or.inr (Or.inl (by decide))))

end WebApp
